import Mathlib

/-!
Verification development for the Z-Image serverless handler (src/handler.py).

The handler is a request/response adapter around a rendering engine's HTTP
API.  We shallowly embed its pure data manipulation (JSON values, workflow
override application, input validation) and its orchestration control flow
(submission retry loop, completion polling, image extraction) as executable
Lean functions.  Network effects are modelled by oracle functions supplied as
parameters: the engine's submission responses per attempt, its history
responses per poll tick, and its image-fetch responses per descriptor.
Randomness (`random.randint`) is modelled by an explicit parameter ranging
over the values the generator can produce.  Python exceptions are modelled
by `Option`/flag results (`none` / `true` = an uncaught exception).
-/

/-- A JSON-like Python value as handled by the handler: `None`, booleans,
numbers (modelled by integers; the handler never computes with floats, it
only stores and compares them), strings, lists, and string-keyed
dictionaries (association lists in insertion order, keys unique). -/
inductive Value where
  | null : Value
  | bool (b : Bool) : Value
  | int (n : Int) : Value
  | str (s : String) : Value
  | list (xs : List Value) : Value
  | dict (es : List (String × Value)) : Value
deriving Repr

mutual

/-- Structural (boolean) equality of values. -/
def Value.beq : Value → Value → Bool
  | .null, .null => true
  | .bool a, .bool b => a == b
  | .int a, .int b => a == b
  | .str a, .str b => a == b
  | .list xs, .list ys => beqValueList xs ys
  | .dict es, .dict fs => beqValueEntries es fs
  | _, _ => false

/-- Structural equality of value lists. -/
def beqValueList : List Value → List Value → Bool
  | [], [] => true
  | x :: xs, y :: ys => Value.beq x y && beqValueList xs ys
  | _, _ => false

/-- Structural equality of dictionary entry lists. -/
def beqValueEntries : List (String × Value) → List (String × Value) → Bool
  | [], [] => true
  | (k, v) :: es, (k', v') :: fs => k == k' && Value.beq v v' && beqValueEntries es fs
  | _, _ => false

end

instance : BEq Value := ⟨Value.beq⟩

/-- Python truthiness of a value (`if value:`): `None`, `False`, `0`, `""`,
`[]` and `{}` are falsy, everything else truthy. -/
def truthy : Value → Bool
  | .null => false
  | .bool b => b
  | .int n => n != 0
  | .str s => s != ""
  | .list xs => !xs.isEmpty
  | .dict es => !es.isEmpty

/-- Numeric view used by Python `==`: booleans are a subclass of `int`
(`True == 1`), so numeric comparison coerces them. -/
def pyNum : Value → Option Int
  | .int n => some n
  | .bool b => some (if b then 1 else 0)
  | _ => none

/-- Python `==` as used by the handler: numeric cross-type equality between
ints and bools, structural equality otherwise.  (The handler only compares
against the scalar literals `76` and `"execution error"`.) -/
def pyEq (a b : Value) : Bool :=
  match pyNum a, pyNum b with
  | some x, some y => x == y
  | _, _ => a == b

/-- `isinstance(v, (int, float))` as used by `validate_input`: in Python,
`bool` is a subclass of `int`, so `True` counts as a number. -/
def pyIsNumber : Value → Bool
  | .int _ => true
  | .bool _ => true
  | _ => false

/-- Is the value a Python dict?  (`isinstance(v, dict)`.) -/
def Value.isDict : Value → Bool
  | .dict _ => true
  | _ => false

/-- Python dict assignment `d[k] = v`: replace the value at an existing key
in place (dicts keep insertion order), or append a fresh key at the end. -/
def dictSet : List (String × Value) → String → Value → List (String × Value)
  | [], k, v => [(k, v)]
  | (k', v') :: rest, k, v =>
      if k' = k then (k, v) :: rest else (k', v') :: dictSet rest k v

/-! ## Parameter override engine (`apply_workflow_overrides`, handler.py 264-341) -/

/-- `SUBGRAPH_NODE_INDEX = 76`: the id of the parameterizable unit node. -/
def SUBGRAPH_NODE_INDEX : Int := 76

/-- The fixed positional slots of the recognized override keys
(`override_map`, handler.py 304-314). -/
def override_map : String → Option Nat
  | "prompt" => some 0
  | "width" => some 1
  | "height" => some 2
  | "steps" => some 3
  | "cfg" => some 4
  | "seed" => some 5
  | "unet_name" => some 7
  | "clip_name" => some 8
  | "vae_name" => some 9
  | _ => none

/-- The search for the subgraph node (handler.py 279-283): scan the node
list in order, stop at the first node whose `id` equals 76 and return its
position and entries.  `some none` = no such node; the outer `none` models
the `AttributeError` raised by `node.get("id")` when a non-dict element is
reached before a match. -/
def findNode76 : List Value → Option (Option (Nat × List (String × Value)))
  | [] => some none
  | .dict nes :: rest =>
      if pyEq ((nes.lookup "id").getD .null) (.int SUBGRAPH_NODE_INDEX) then
        some (some (0, nes))
      else
        (findNode76 rest).map (Option.map (fun p => (p.1 + 1, p.2)))
  | _ :: _ => none

/-- The override loop (handler.py 317-327): for each `(key, value)` pair in
the mapping, in insertion order, write `value` to the mapped slot when the
slot index is within the current list length; skip (with a log) otherwise
and for unrecognized keys.  Note the write happens whether or not `value`
is null. -/
def applyLoop : List Value → List (String × Value) → List Value
  | wv, [] => wv
  | wv, (k, v) :: rest =>
    applyLoop
      (match override_map k with
       | some i => if i < wv.length then wv.set i v else wv
       | none => wv)
      rest

/-- Does the mapping bind `seed` to an explicit null
(`"seed" in overrides and overrides["seed"] is None`, handler.py 330)? -/
def seedIsNull (oves : List (String × Value)) : Bool :=
  match oves.lookup "seed" with
  | some .null => true
  | _ => false

/-- The state of the deep copy of the workflow after
`apply_workflow_overrides` (handler.py 264-341) runs on it, together with a
flag telling whether an uncaught exception was raised.  The mutation
semantics of the source are modelled faithfully at document granularity:

* the function operates on `copy.deepcopy(workflow)` (line 276), so mutation
  concerns only the copy;
* the loop's slot writes land in the node's own list only when the node had
  a `widgets_values` key (otherwise `node.get("widgets_values", [])` is a
  fresh list, invisible until line 339 reassigns the key);
* if `seed` is bound to null, line 332 writes `widgets_values[5]`
  unconditionally, raising `IndexError` when the list has at most five
  entries — line 339 is then never reached;
* if the list has more than six entries, slot 6 is forced to `"randomize"`.

`rand` is the value drawn by `random.randint(0, 2**32 - 1)` when the
seed-null branch runs.  Structures on which the Python would raise
(a non-dict workflow or override mapping, a non-list `nodes` or
`widgets_values`, a non-dict node before the match) are mapped to the
raised flag. -/
def applyOverridesState (rand : Nat) (w ov : Value) : Value × Bool :=
  match w with
  | .dict wes =>
    match (wes.lookup "nodes").getD (.list []) with
    | .list ns =>
      match findNode76 ns with
      | none => (w, true)
      | some none => (w, false)
      | some (some (i, nes)) =>
        match (nes.lookup "widgets_values").getD (.list []) with
        | .list wv =>
          match ov with
          | .dict oves =>
            let wv1 := applyLoop wv oves
            if seedIsNull oves ∧ ¬ 5 < wv1.length then
              -- IndexError at line 332: the loop's writes are visible in the
              -- copy only when the node itself held the list.
              (if (nes.lookup "widgets_values").isSome then
                 .dict (dictSet wes "nodes"
                   (.list (ns.set i (.dict (dictSet nes "widgets_values" (.list wv1))))))
               else w, true)
            else
              let wv2 := if seedIsNull oves then wv1.set 5 (.int rand) else wv1
              let wv3 := if 6 < wv2.length then wv2.set 6 (.str "randomize") else wv2
              (.dict (dictSet wes "nodes"
                 (.list (ns.set i (.dict (dictSet nes "widgets_values" (.list wv3)))))), false)
          | _ => (w, true)
        | _ => (w, true)
    | _ => (w, true)
  | _ => (w, true)

/-- `apply_workflow_overrides` as seen by a caller: the overridden document,
or `none` when the call raises. -/
def apply_workflow_overrides (rand : Nat) (w ov : Value) : Option Value :=
  match applyOverridesState rand w ov with
  | (_, true) => none
  | (st, false) => some st

/-- `apply_workflow_overrides` with the heap made explicit, to state the
copy-on-write discipline: the heap is a list of documents, the input lives
at address `a`, `copy.deepcopy` (line 276) allocates a fresh cell at the end
of the heap, and every mutation of the function targets that fresh cell.
Returns the final heap and the address of the result (`none` when the call
raises). -/
def apply_workflow_overrides_heap (rand : Nat) (h : List Value) (a : Nat) (ov : Value) :
    List Value × Option Nat :=
  match applyOverridesState rand (h.getD a .null) ov with
  | (st, false) => (h ++ [st], some h.length)
  | (st, true) => (h ++ [st], none)

/-! Accessors used to state properties of documents. -/

/-- The widget-value list of the parameterizable unit (the first node with
id 76), when the document is well-formed enough to expose one. -/
def node76Widgets (w : Value) : Option (List Value) :=
  match w with
  | .dict wes =>
    match (wes.lookup "nodes").getD (.list []) with
    | .list ns =>
      match findNode76 ns with
      | some (some (_, nes)) =>
        match (nes.lookup "widgets_values").getD (.list []) with
        | .list wv => some wv
        | _ => none
      | _ => none
    | _ => none
  | _ => none

/-- Widget slot `j` of the parameterizable unit. -/
def widget76 (w : Value) (j : Nat) : Option Value :=
  (node76Widgets w).bind (fun wv => wv[j]?)

/-! ## Input validation (`validate_input`, handler.py 344-379) -/

/-- The numeric override parameters, in the order the validator checks
them (handler.py 369). -/
def numericParams : List String := ["width", "height", "steps", "cfg", "seed"]

/-- The numeric-parameter checks of `validate_input` (handler.py 369-372):
for each parameter present with a non-null value, require an
`isinstance(…, (int, float))` value; the first violation's message wins. -/
def checkNumerics (oves : List (String × Value)) : Option String :=
  numericParams.foldl
    (fun acc p =>
      match acc with
      | some m => some m
      | none =>
        match oves.lookup p with
        | some v =>
          match v with
          | .null => none
          | _ => if pyIsNumber v then none
                 else some ("Parameter '" ++ p ++ "' must be a number")
        | none => none)
    none

/-- `validate_input` (handler.py 344-379).  Note line 364's `if overrides:`
guards the shape checks by Python truthiness, so a falsy non-mapping
`overrides` value (`[]`, `0`, `""`, `False`, `None`) passes validation. -/
def validate_input (event : Value) : Bool × Option String :=
  match event with
  | .dict ees =>
    match (ees.lookup "input").getD (.dict []) with
    | .dict ies =>
      let ov := (ies.lookup "overrides").getD (.dict [])
      if truthy ov then
        match ov with
        | .dict oves =>
          match checkNumerics oves with
          | some m => (false, some m)
          | none =>
            match oves.lookup "prompt" with
            | some pv =>
              match pv with
              | .null => (true, none)
              | .str _ => (true, none)
              | _ => (false, some "Parameter 'prompt' must be a string")
            | none => (true, none)
        | _ => (false, some "Overrides must be a dictionary")
      else (true, none)
    | _ => (false, some "Event input must be a dictionary")
  | _ => (false, some "Event must be a dictionary")

/-! ## Submission client (`queue_prompt`, handler.py 73-108) -/

/-- `MAX_RETRIES = 3` (handler.py 44). -/
def MAX_RETRIES : Nat := 3

/-- `POLL_INTERVAL = 1` second (handler.py 45); the polling embedding
counts time in ticks of one poll interval. -/
def POLL_INTERVAL : Nat := 1

/-- `JOB_TIMEOUT = 300` seconds (handler.py 46). -/
def JOB_TIMEOUT : Nat := 300

/-- The engine's response to one submission attempt: `fail` is any
transport-level failure (`requests.exceptions.RequestException`: connection
error, non-2xx from `raise_for_status`, timeout), `ok body` a 2xx response
with parsed JSON `body`. -/
inductive SubmitResp where
  | fail : SubmitResp
  | ok (body : Value) : SubmitResp

/-- Outcome of `queue_prompt`: a job handle, `None` (no handle), or an
uncaught exception. -/
inductive QPRes where
  | crash : QPRes
  | noHandle : QPRes
  | handle (pid : Value) : QPRes
deriving Repr

/-- The retry loop of `queue_prompt` (handler.py 86-108): `fuel` is the
number of attempts left (`MAX_RETRIES - attempt`), `attempt` the 0-based
attempt index.  A transport failure retries (after an exponential-backoff
sleep) while `attempt < MAX_RETRIES - 1`, else gives up; a parsed response
yields its truthy `prompt_id` or `None` (line 93-100); a non-dict body
makes `result.get` raise. -/
def queue_promptAux (submit : Nat → SubmitResp) : Nat → Nat → QPRes
  | _, 0 => .noHandle
  | attempt, fuel + 1 =>
    match submit attempt with
    | .ok body =>
      match body with
      | .dict bes =>
        let pid := (bes.lookup "prompt_id").getD .null
        if truthy pid then .handle pid else .noHandle
      | _ => .crash
    | .fail =>
      if fuel = 0 then .noHandle
      else queue_promptAux submit (attempt + 1) fuel

/-- `queue_prompt` (handler.py 73-108), over an engine oracle giving the
response to each attempt. -/
def queue_prompt (submit : Nat → SubmitResp) : QPRes :=
  queue_promptAux submit 0 MAX_RETRIES

/-! ## Completion poller (`wait_for_completion`, handler.py 132-179) -/

/-- Outcome of `wait_for_completion`: the source's result dictionaries
`{"status": "completed", "data": …}`, `{"status": "error", "error": …}` and
`{"status": "timeout", "error": …}` as an ADT, plus `crash` for histories
on which the source raises (a non-dict entry under the prompt id, or a
non-dict `status` field). -/
inductive WaitRes where
  | completed (data : Value) : WaitRes
  | error (msg : Value) : WaitRes
  | timedOut (timeout : Nat) : WaitRes
  | crash : WaitRes
deriving Repr

/-- `prompt_id in history` / `history[prompt_id]` where the history is a
JSON object: a non-string id is never among the string keys. -/
def jlookup (es : List (String × Value)) (pid : Value) : Option Value :=
  match pid with
  | .str s => es.lookup s
  | _ => none

/-- The polling loop of `wait_for_completion` (handler.py 147-173) in a
discrete-time model: each iteration takes one `POLL_INTERVAL` tick (the
`time.sleep` at its end), `t` is the current tick, `remaining` the ticks
left before the deadline (`timeout - t`).  The oracle `hist` gives
`get_history`'s result at each tick; `none` is a transport failure (logged
and treated as pending, line 150-153).  The engine's `/history/{id}`
responses are JSON objects keyed by prompt id, per its API. -/
def waitLoop (hist : Nat → Option (List (String × Value))) (pid : Value) (timeout : Nat) :
    Nat → Nat → WaitRes
  | 0, _ => .timedOut timeout
  | remaining + 1, t =>
    match hist t with
    | none => waitLoop hist pid timeout remaining (t + 1)
    | some hes =>
      match jlookup hes pid with
      | none => waitLoop hist pid timeout remaining (t + 1)
      | some pd =>
        match pd with
        | .dict pdes =>
          match (pdes.lookup "status").getD (.dict []) with
          | .dict ses =>
            if truthy ((ses.lookup "completed").getD (.bool false)) then
              .completed pd
            else if pyEq ((ses.lookup "str").getD .null) (.str "execution error") then
              .error ((ses.lookup "exception").getD (.str "Unknown error"))
            else waitLoop hist pid timeout remaining (t + 1)
          | _ => .crash
        | _ => .crash

/-- `wait_for_completion` (handler.py 132-179). -/
def wait_for_completion (hist : Nat → Option (List (String × Value))) (pid : Value)
    (timeout : Nat) : WaitRes :=
  waitLoop hist pid timeout timeout 0

/-! ## Result extractor (`extract_images` and `get_image`, handler.py 182-261) -/

/-- The base64 alphabet (`base64.b64encode`). -/
def b64Alphabet : List Char :=
  "ABCDEFGHIJKLMNOPQRSTUVWXYZabcdefghijklmnopqrstuvwxyz0123456789+/".toList

/-- Character `n` of the base64 alphabet. -/
def b64Char (n : Nat) : Char := b64Alphabet.getD n '='

/-- Base64 encoding of a byte list, three bytes at a time with `=` padding. -/
def b64Chunks : List Nat → List Char
  | [] => []
  | [a] => [b64Char (a / 4), b64Char (a % 4 * 16), '=', '=']
  | [a, b] => [b64Char (a / 4), b64Char (a % 4 * 16 + b / 16), b64Char (b % 16 * 4), '=']
  | a :: b :: c :: rest =>
      b64Char (a / 4) :: b64Char (a % 4 * 16 + b / 16) ::
        b64Char (b % 16 * 4 + c / 64) :: b64Char (c % 64) :: b64Chunks rest

/-- `base64.b64encode(image_bytes).decode('utf-8')` (handler.py 244). -/
def b64encode (bs : List Nat) : String := String.mk (b64Chunks bs)

/-- One encoded image record (handler.py 246-251): `{"filename": …,
"subfolder": …, "type": …, "data": base64}`; the `type` field is named
`ftype` here. -/
structure ImageRec where
  filename : Value
  subfolder : Value
  ftype : Value
  data : String
deriving Repr

/-- Python substring test (`pat in s`). -/
def strContains (s pat : String) : Bool :=
  (List.range (s.length + 1)).any (fun i => (s.drop i).take pat.length == pat)

/-- The inner loop over one node's image descriptors (handler.py 233-254):
skip descriptors with a falsy `filename`, fetch the rest through the
`get_image` oracle (`none` = transport failure, logged and skipped), keep
only truthy byte strings, and base64-encode them.  The boolean flags the
`AttributeError` of `img_info.get` on a non-dict descriptor, which aborts
the whole batch (caught at handler.py 259 with the images gathered so
far). -/
def extractImgList (fetch : Value → Value → Value → Option (List Nat)) :
    List Value → List ImageRec → List ImageRec × Bool
  | [], acc => (acc, false)
  | img :: rest, acc =>
    match img with
    | .dict ies =>
      let fn := (ies.lookup "filename").getD .null
      if truthy fn then
        let sub := (ies.lookup "subfolder").getD (.str "")
        let ty := (ies.lookup "type").getD (.str "output")
        match fetch fn sub ty with
        | some bs =>
          if !bs.isEmpty then extractImgList fetch rest (acc ++ [⟨fn, sub, ty, b64encode bs⟩])
          else extractImgList fetch rest acc
        | none => extractImgList fetch rest acc
      else extractImgList fetch rest acc
    | _ => (acc, true)

/-- The outer loop over the output manifest's entries (handler.py 231-254).
For each node output: a dict with an `images` list is processed; a dict
without one, or whose `images` is an empty string or dict (zero
iterations), is skipped; any shape on which the Python raises while
checking `"images" in node_output` or iterating `node_output["images"]`
aborts the batch with the images gathered so far. -/
def extractNodes (fetch : Value → Value → Value → Option (List Nat)) :
    List (String × Value) → List ImageRec → List ImageRec × Bool
  | [], acc => (acc, false)
  | (_, nout) :: rest, acc =>
    match nout with
    | .dict noes =>
      match noes.lookup "images" with
      | some (.list imgs) =>
        match extractImgList fetch imgs acc with
        | (acc', false) => extractNodes fetch rest acc'
        | (acc', true) => (acc', true)
      | some (.str s) => if s == "" then extractNodes fetch rest acc else (acc, true)
      | some (.dict ds) => if ds.isEmpty then extractNodes fetch rest acc else (acc, true)
      | some _ => (acc, true)
      | none => extractNodes fetch rest acc
    | .list xs =>
      if xs.any (fun x => pyEq x (.str "images")) then (acc, true)
      else extractNodes fetch rest acc
    | .str s => if strContains s "images" then (acc, true) else extractNodes fetch rest acc
    | _ => (acc, true)

/-- `extract_images` (handler.py 210-261): nothing for a non-completed
result; otherwise walk the manifest, with every exception caught at line
259 returning the images gathered so far. -/
def extract_images (fetch : Value → Value → Value → Option (List Nat))
    (result : WaitRes) : List ImageRec :=
  match result with
  | .completed data =>
    match data with
    | .dict des =>
      match (des.lookup "outputs").getD (.dict []) with
      | .dict outs => (extractNodes fetch outs []).1
      | _ => []
    | _ => []
  | _ => []

/-- Specification-side description of the extractor's treatment of one
image descriptor: the encoded record when the filename is truthy and the
fetch succeeds with non-empty bytes, nothing otherwise. -/
def fetchImage (fetch : Value → Value → Value → Option (List Nat))
    (img : Value) : Option ImageRec :=
  match img with
  | .dict ies =>
    if truthy ((ies.lookup "filename").getD .null) then
      match fetch ((ies.lookup "filename").getD .null)
          ((ies.lookup "subfolder").getD (.str ""))
          ((ies.lookup "type").getD (.str "output")) with
      | some bs =>
        if !bs.isEmpty then
          some ⟨(ies.lookup "filename").getD .null, (ies.lookup "subfolder").getD (.str ""),
            (ies.lookup "type").getD (.str "output"), b64encode bs⟩
        else none
      | none => none
    else none
  | _ => none

/-- Specification-side description of the extractor's output on a
well-formed image list: the successful fetches, in order, each encoded;
failed or empty fetches and falsy filenames are omitted. -/
def fetchedImages (fetch : Value → Value → Value → Option (List Nat))
    (imgs : List Value) : List ImageRec :=
  imgs.filterMap (fetchImage fetch)

/-! ## Request orchestrator (`handler`, handler.py 382-478) -/

/-- The external collaborators of one request: the engine's responses to
submission attempts, to history polls (by tick), and to image fetches. -/
structure Engine where
  submit : Nat → SubmitResp
  history : Nat → Option (List (String × Value))
  fetch : Value → Value → Value → Option (List Nat)

/-- One request's environment: the engine, the value `random.randint`
would draw, and the startup template (`DEFAULT_WORKFLOW`; `none` means the
workflow file is unavailable, so the lazy reload at handler.py 425-426
raises). -/
structure Cfg where
  engine : Engine
  rand : Nat
  defaultWorkflow : Option Value

/-- The workflow-selection and override steps of `handler`
(handler.py 418-434): the caller's `input.workflow` when truthy, else a
deep copy of the template (`none` = the reload raises); then
`apply_workflow_overrides` when `input.overrides` is truthy. -/
def chooseWorkflow (cfg : Cfg) (ev : Value) : Option Value :=
  match ev with
  | .dict ees =>
    match (ees.lookup "input").getD (.dict []) with
    | .dict ies =>
      let wfv := (ies.lookup "workflow").getD .null
      match (if truthy wfv then some wfv else cfg.defaultWorkflow) with
      | none => none
      | some wf0 =>
        let ovv := (ies.lookup "overrides").getD (.dict [])
        if truthy ovv then apply_workflow_overrides cfg.rand wf0 ovv else some wf0
    | _ => none
  | _ => none

/-- The response envelope (handler.py 392-401): `output` is null or
`{"images": …, "prompt_id": …}`; the float `execution_time` field is not
modelled (wall-clock timing).  `error` is null or the failure value. -/
structure Resp where
  output : Option (List ImageRec × Value)
  error : Value
  status : String
deriving Repr

/-- One handler run: the returned envelope (`none` = an uncaught
exception), the workflow document passed to `queue_prompt` (when
submission was reached), and whether `wait_for_completion` was entered. -/
structure HandlerRun where
  resp : Option Resp
  submitted : Option Value
  polled : Bool
deriving Repr

/-- `handler` (handler.py 382-478): validate, choose the workflow, apply
overrides, submit, poll, extract, and map each outcome to its envelope.
The timeout envelope's message is the one `wait_for_completion` builds at
handler.py 178 from its `timeout` argument. -/
def handlerRun (cfg : Cfg) (ev : Value) : HandlerRun :=
  match validate_input ev with
  | (false, m) =>
    ⟨some ⟨none, .str ("Validation error: " ++ (match m with | some s => s | none => "None")),
      "FAILED"⟩, none, false⟩
  | (true, _) =>
    match chooseWorkflow cfg ev with
    | none => ⟨none, none, false⟩
    | some wf =>
      match queue_prompt cfg.engine.submit with
      | .crash => ⟨none, some wf, false⟩
      | .noHandle =>
        ⟨some ⟨none, .str "Failed to submit workflow to ComfyUI", "FAILED"⟩, some wf, false⟩
      | .handle pid =>
        match wait_for_completion cfg.engine.history pid JOB_TIMEOUT with
        | .crash => ⟨none, some wf, true⟩
        | .timedOut t =>
          ⟨some ⟨none, .str ("Execution timed out after " ++ toString t ++ " seconds"),
            "FAILED"⟩, some wf, true⟩
        | .error msg => ⟨some ⟨none, msg, "FAILED"⟩, some wf, true⟩
        | .completed pd =>
          ⟨some ⟨some (extract_images cfg.engine.fetch (.completed pd), pid), .null,
            "COMPLETED"⟩, some wf, true⟩


/-! ## Helper lemmas -/

theorem lookup_dictSet_self (es : List (String × Value)) (k : String) (v : Value) :
    (dictSet es k v).lookup k = some v := by
  induction es with
  | nil => simp [dictSet, List.lookup]
  | cons e rest ih =>
    obtain ⟨k', v'⟩ := e
    by_cases h : k' = k
    · simp [dictSet, h, List.lookup]
    · have hb : (k == k') = false := beq_eq_false_iff_ne.mpr (Ne.symm h)
      simp [dictSet, h, List.lookup, hb, ih]

theorem lookup_dictSet_ne (es : List (String × Value)) (k k' : String) (v : Value)
    (h : k' ≠ k) : (dictSet es k v).lookup k' = es.lookup k' := by
  have hb : (k' == k) = false := beq_eq_false_iff_ne.mpr h
  induction es with
  | nil => simp [dictSet, List.lookup, hb]
  | cons e rest ih =>
    obtain ⟨k₀, v₀⟩ := e
    by_cases h0 : k₀ = k
    · subst h0
      simp [dictSet, List.lookup, hb]
    · cases hkk : (k' == k₀) <;> simp [dictSet, h0, List.lookup, hkk, ih]

theorem findNode76_found_id (ns : List Value) (i : Nat) (nes : List (String × Value))
    (h : findNode76 ns = some (some (i, nes))) :
    pyEq ((nes.lookup "id").getD .null) (.int SUBGRAPH_NODE_INDEX) = true := by
  induction ns generalizing i with
  | nil => simp [findNode76] at h
  | cons n rest ih =>
    match n with
    | .null | .bool _ | .int _ | .str _ | .list _ => simp [findNode76] at h
    | .dict mes =>
      by_cases hm : pyEq ((mes.lookup "id").getD .null) (.int SUBGRAPH_NODE_INDEX) = true
      · simp only [findNode76, hm, if_true, Option.some.injEq, Prod.mk.injEq] at h
        obtain ⟨rfl, rfl⟩ := h
        exact hm
      · simp only [findNode76, hm, if_false, Bool.false_eq_true, Option.map_eq_some'] at h
        obtain ⟨o, ho, ⟨j, mes'⟩, rfl, hp⟩ := h
        rw [Prod.mk.injEq] at hp
        obtain ⟨hji, rfl⟩ := hp
        exact ih j ho

theorem findNode76_set (ns : List Value) (i : Nat) (nes nes' : List (String × Value))
    (h : findNode76 ns = some (some (i, nes)))
    (hid : pyEq ((nes'.lookup "id").getD .null) (.int SUBGRAPH_NODE_INDEX) = true) :
    findNode76 (ns.set i (.dict nes')) = some (some (i, nes')) := by
  induction ns generalizing i with
  | nil => simp [findNode76] at h
  | cons n rest ih =>
    match n with
    | .null | .bool _ | .int _ | .str _ | .list _ => simp [findNode76] at h
    | .dict mes =>
      by_cases hm : pyEq ((mes.lookup "id").getD .null) (.int SUBGRAPH_NODE_INDEX) = true
      · simp only [findNode76, hm, if_true, Option.some.injEq, Prod.mk.injEq] at h
        obtain ⟨rfl, rfl⟩ := h
        simp [findNode76, hid]
      · simp only [findNode76, hm, if_false, Bool.false_eq_true, Option.map_eq_some'] at h
        obtain ⟨o, ho, ⟨j, mes'⟩, rfl, hp⟩ := h
        rw [Prod.mk.injEq] at hp
        obtain ⟨hji, rfl⟩ := hp
        subst hji
        simp [findNode76, hm, ih j ho]

theorem applyLoop_length (wv : List Value) (oves : List (String × Value)) :
    (applyLoop wv oves).length = wv.length := by
  induction oves generalizing wv with
  | nil => rfl
  | cons p rest ih =>
    obtain ⟨k, v⟩ := p
    rw [applyLoop, ih]
    cases override_map k with
    | none => rfl
    | some i => by_cases hlt : i < wv.length <;> simp [hlt]

theorem applyLoop_get_of_not_mapped (wv : List Value) (oves : List (String × Value))
    (i : Nat) (h : ∀ p ∈ oves, override_map p.1 ≠ some i) :
    (applyLoop wv oves)[i]? = wv[i]? := by
  induction oves generalizing wv with
  | nil => rfl
  | cons p rest ih =>
    obtain ⟨k, v⟩ := p
    rw [applyLoop, ih _ (fun q hq => h q (List.mem_cons_of_mem _ hq))]
    cases hp : override_map k with
    | none => rfl
    | some j =>
      have hji : j ≠ i := fun he => h (k, v) (List.mem_cons_self _ _) (he ▸ hp)
      by_cases hlt : j < wv.length <;> simp [hlt, List.getElem?_set_ne hji]

theorem override_map_inj (k k' : String) (i : Nat)
    (h : override_map k = some i) (h' : override_map k' = some i) : k = k' := by
  unfold override_map at h h'
  split at h <;> split at h' <;> simp_all <;> omega

theorem override_map_ne_six (k : String) (i : Nat) (h : override_map k = some i) : i ≠ 6 := by
  unfold override_map at h
  split at h <;> simp_all <;> omega

theorem override_map_ne_five (k : String) (i : Nat) (hk : k ≠ "seed")
    (h : override_map k = some i) : i ≠ 5 := by
  unfold override_map at h
  split at h <;> simp_all <;> omega

theorem applyLoop_mem_get (wv : List Value) (oves : List (String × Value))
    (k : String) (v : Value) (i : Nat) (hmem : (k, v) ∈ oves)
    (hnd : (oves.map Prod.fst).Nodup) (hk : override_map k = some i)
    (hlt : i < wv.length) : (applyLoop wv oves)[i]? = some v := by
  induction oves generalizing wv with
  | nil => simp at hmem
  | cons p rest ih =>
    obtain ⟨k', v'⟩ := p
    simp only [List.map_cons, List.nodup_cons] at hnd
    rcases List.mem_cons.mp hmem with he | hr
    · obtain ⟨rfl, rfl⟩ := Prod.mk.injEq .. ▸ he
      rw [applyLoop, hk]
      simp only [hlt, if_true]
      rw [applyLoop_get_of_not_mapped]
      · exact List.getElem?_set_self hlt
      · intro q hq hqi
        have hkq : k = q.1 := override_map_inj k q.1 i hk hqi
        exact hnd.1 (hkq ▸ List.mem_map_of_mem Prod.fst hq)
    · rw [applyLoop]
      cases hp : override_map k' with
      | none => exact ih _ hr hnd.2 hlt
      | some j =>
        by_cases hjl : j < wv.length
        · simp only [hjl, if_true]
          exact ih _ hr hnd.2 (by simpa using hlt)
        · simp only [hjl, if_false]
          exact ih _ hr hnd.2 hlt

theorem getD_list_cases (o : Option Value) (ns : List Value)
    (h : o.getD (.list []) = .list ns) : o = some (.list ns) ∨ (o = none ∧ ns = []) := by
  cases o with
  | none => simp_all
  | some v => simp_all

theorem node76Widgets_elim (w : Value) (wv : List Value) (h : node76Widgets w = some wv) :
    ∃ wes ns i nes, w = .dict wes ∧
      (wes.lookup "nodes").getD (.list []) = .list ns ∧
      findNode76 ns = some (some (i, nes)) ∧
      (nes.lookup "widgets_values").getD (.list []) = .list wv := by
  unfold node76Widgets at h
  split at h
  case _ wes =>
    split at h
    case _ ns hns =>
      split at h
      case _ i nes hf =>
        split at h
        case _ wv' hwv' =>
          obtain rfl : wv' = wv := by simpa using h
          exact ⟨wes, ns, i, nes, rfl, hns, hf, hwv'⟩
        all_goals exact absurd h (by simp)
      all_goals exact absurd h (by simp)
    all_goals exact absurd h (by simp)
  all_goals exact absurd h (by simp)

theorem node76Widgets_result (wes : List (String × Value)) (ns : List Value) (i : Nat)
    (nes : List (String × Value)) (wv3 : List Value)
    (hf : findNode76 ns = some (some (i, nes))) :
    node76Widgets (.dict (dictSet wes "nodes"
      (.list (ns.set i (.dict (dictSet nes "widgets_values" (.list wv3))))))) = some wv3 := by
  have hid : pyEq (((dictSet nes "widgets_values" (.list wv3)).lookup "id").getD .null)
      (.int SUBGRAPH_NODE_INDEX) = true := by
    rw [lookup_dictSet_ne _ _ _ _ (by decide)]
    exact findNode76_found_id ns i nes hf
  simp only [node76Widgets, lookup_dictSet_self, Option.getD_some,
    findNode76_set ns i nes _ hf hid]

/-- The final widget-value list produced by `apply_workflow_overrides` on
the success path: the loop's writes, then the seed regeneration, then the
forced seed-control mode. -/
def finalWidgets (rand : Nat) (oves : List (String × Value)) (wv : List Value) : List Value :=
  let wv1 := applyLoop wv oves
  let wv2 := if seedIsNull oves then wv1.set 5 (.int rand) else wv1
  if 6 < wv2.length then wv2.set 6 (.str "randomize") else wv2

theorem finalWidgets_length (rand : Nat) (oves : List (String × Value)) (wv : List Value) :
    (finalWidgets rand oves wv).length = wv.length := by
  unfold finalWidgets
  by_cases hs : seedIsNull oves <;> simp [hs, applyLoop_length] <;>
    split <;> simp [applyLoop_length]

theorem applyOverridesState_found (rand : Nat) (wes : List (String × Value)) (ns : List Value)
    (i : Nat) (nes : List (String × Value)) (wv : List Value) (oves : List (String × Value))
    (hn : (wes.lookup "nodes").getD (.list []) = .list ns)
    (hf : findNode76 ns = some (some (i, nes)))
    (hw : (nes.lookup "widgets_values").getD (.list []) = .list wv)
    (h5 : seedIsNull oves = true → 5 < wv.length) :
    apply_workflow_overrides rand (.dict wes) (.dict oves) =
      some (.dict (dictSet wes "nodes" (.list (ns.set i
        (.dict (dictSet nes "widgets_values" (.list (finalWidgets rand oves wv)))))))) := by
  have hnotc : ¬ (seedIsNull oves = true ∧ ¬ 5 < (applyLoop wv oves).length) := by
    rintro ⟨hs, hnl⟩
    exact hnl (by rw [applyLoop_length]; exact h5 hs)
  unfold apply_workflow_overrides applyOverridesState
  simp only [hn, hf, hw]
  rw [if_neg hnotc]
  rfl

theorem finalWidgets_get_five (rand : Nat) (oves : List (String × Value)) (wv : List Value)
    (hs : seedIsNull oves = true) (h5 : 5 < wv.length) :
    (finalWidgets rand oves wv)[5]? = some (.int rand) := by
  have h5' : 5 < (applyLoop wv oves).length := by rw [applyLoop_length]; exact h5
  unfold finalWidgets
  simp only [hs, if_true]
  split
  · rw [List.getElem?_set_ne (by decide), List.getElem?_set_self h5']
  · rw [List.getElem?_set_self h5']

theorem finalWidgets_get_six (rand : Nat) (oves : List (String × Value)) (wv : List Value)
    (h6 : 6 < wv.length) :
    (finalWidgets rand oves wv)[6]? = some (.str "randomize") := by
  have h6' : 6 < (applyLoop wv oves).length := by rw [applyLoop_length]; exact h6
  unfold finalWidgets
  cases hs : seedIsNull oves
  · simp only [Bool.false_eq_true, if_false]
    rw [if_pos h6', List.getElem?_set_self h6']
  · simp only [if_true]
    have h6s : 6 < ((applyLoop wv oves).set 5 (.int rand)).length := by
      rw [List.length_set]; exact h6'
    rw [if_pos h6s, List.getElem?_set_self h6s]

theorem finalWidgets_get_loop (rand : Nat) (oves : List (String × Value)) (wv : List Value)
    (i : Nat) (hi5 : i ≠ 5) (hi6 : i ≠ 6) :
    (finalWidgets rand oves wv)[i]? = (applyLoop wv oves)[i]? := by
  unfold finalWidgets
  cases hs : seedIsNull oves
  · simp only [Bool.false_eq_true, if_false]
    split
    · rw [List.getElem?_set_ne (Ne.symm hi6)]
    · rfl
  · simp only [if_true]
    split
    · rw [List.getElem?_set_ne (Ne.symm hi6), List.getElem?_set_ne (Ne.symm hi5)]
    · rw [List.getElem?_set_ne (Ne.symm hi5)]

/-! ## Claim theorems -/

/-- C6: when the override mapping binds `seed` to an explicit null, and the
parameterizable unit exists with a seed slot (index 5 within its
widget-value list), `apply_workflow_overrides` writes the freshly drawn
random integer — any value the generator `random.randint(0, 2**32 - 1)` can
produce — to slot 5 of the unit, on every invocation. -/
theorem c6_seed_null_writes_random (rand : Nat) (w : Value) (oves : List (String × Value))
    (wv : List Value) (hwv : node76Widgets w = some wv) (h5 : 5 < wv.length)
    (hseed : oves.lookup "seed" = some Value.null) (hrand : rand ≤ 2 ^ 32 - 1) :
    ∃ w', apply_workflow_overrides rand w (.dict oves) = some w' ∧
      widget76 w' 5 = some (.int rand) ∧ (rand : Int) ≤ 2 ^ 32 - 1 := by
  obtain ⟨wes, ns, i, nes, rfl, hn, hf, hw⟩ := node76Widgets_elim w wv hwv
  have hs : seedIsNull oves = true := by simp [seedIsNull, hseed]
  refine ⟨_, applyOverridesState_found rand wes ns i nes wv oves hn hf hw (fun _ => h5), ?_, ?_⟩
  · rw [widget76, node76Widgets_result wes ns i nes _ hf, Option.some_bind]
    exact finalWidgets_get_five rand oves wv hs h5
  · omega

/-- C6 witness: a concrete run at a ten-slot unit with `seed: null` and the
draw 123 writes seed 123. -/
theorem c6_seed_null_writes_random_witness :
    ∃ w', apply_workflow_overrides 123
        (.dict [("nodes", .list [.dict [("id", .int 76), ("widgets_values", .list
          [.str "p", .int 100, .int 200, .int 9, .int 4, .int 7, .str "fixed",
           .str "u", .str "c", .str "v"])]])])
        (.dict [("seed", .null)]) = some w' ∧
      widget76 w' 5 = some (.int 123) ∧ ((123 : Nat) : Int) ≤ 2 ^ 32 - 1 :=
  c6_seed_null_writes_random 123 _ _ _ rfl (by decide) rfl (by norm_num)

/-- C7: whenever the parameterizable unit exists and its widget-value list
has more than six entries, `apply_workflow_overrides` succeeds and forces
the seed-control-mode slot (index 6) of the result to the literal
`"randomize"`, for every override mapping, including one with no
recognized keys. -/
theorem c7_randomize_forced (rand : Nat) (w : Value) (oves : List (String × Value))
    (wv : List Value) (hwv : node76Widgets w = some wv) (h6 : 6 < wv.length) :
    ∃ w', apply_workflow_overrides rand w (.dict oves) = some w' ∧
      widget76 w' 6 = some (.str "randomize") := by
  obtain ⟨wes, ns, i, nes, rfl, hn, hf, hw⟩ := node76Widgets_elim w wv hwv
  refine ⟨_, applyOverridesState_found rand wes ns i nes wv oves hn hf hw
    (fun _ => by omega), ?_⟩
  rw [widget76, node76Widgets_result wes ns i nes _ hf, Option.some_bind]
  exact finalWidgets_get_six rand oves wv h6

/-- C7 witness: a concrete run with an empty override mapping (no
recognized keys) still forces slot 6 to `"randomize"`. -/
theorem c7_randomize_forced_witness :
    ∃ w', apply_workflow_overrides 0
        (.dict [("nodes", .list [.dict [("id", .int 76), ("widgets_values", .list
          [.str "p", .int 100, .int 200, .int 9, .int 4, .int 7, .str "fixed",
           .str "u", .str "c", .str "v"])]])])
        (.dict []) = some w' ∧
      widget76 w' 6 = some (.str "randomize") :=
  c7_randomize_forced 0 _ _ _ rfl (by decide)

theorem applyOverridesState_crash (rand : Nat) (wes : List (String × Value)) (ns : List Value)
    (i : Nat) (nes : List (String × Value)) (wv : List Value) (oves : List (String × Value))
    (hn : (wes.lookup "nodes").getD (.list []) = .list ns)
    (hf : findNode76 ns = some (some (i, nes)))
    (hw : (nes.lookup "widgets_values").getD (.list []) = .list wv)
    (hs : seedIsNull oves = true) (h5 : ¬ 5 < wv.length) :
    apply_workflow_overrides rand (.dict wes) (.dict oves) = none := by
  unfold apply_workflow_overrides applyOverridesState
  simp only [hn, hf, hw]
  rw [if_pos ⟨hs, by rw [applyLoop_length]; exact h5⟩]

/-- The unit workflow of C1's failing input: the parameterizable unit
exists but its widget-value list has only five entries, so the seed slot
index 5 is out of range. -/
def c1Workflow : Value := .dict [("nodes", .list [.dict [("id", .int 76),
  ("widgets_values", .list [.int 0, .int 0, .int 0, .int 0, .int 0])]])]

/-- C1: the claim is FALSE on the code.  When the overrides contain `seed`
bound to null and the unit's widget-value list has five or fewer entries,
the write `widgets_values[5] = random.randint(...)` at handler.py 332 is
performed without a range check and raises `IndexError` (modelled as
`none`), instead of being skipped and logged.  The spec states the
range-safety intent (and the loop at handler.py 317-327 does skip
out-of-range writes), so the unguarded seed write is a code bug. -/
theorem c1_seed_null_out_of_range_raises (rand : Nat) :
    apply_workflow_overrides rand c1Workflow (.dict [("seed", Value.null)]) = none :=
  applyOverridesState_crash rand _ _ 0 _ [.int 0, .int 0, .int 0, .int 0, .int 0] _
    rfl rfl rfl rfl (by decide)

/-- C2: `apply_workflow_overrides` never mutates its input document.  In
the explicit-heap embedding, the input at address `a` is unchanged by the
call, and the result (when the call returns) lives at a fresh address
distinct from `a` — the copy-on-write discipline of handler.py 276. -/
theorem c2_input_not_mutated (rand : Nat) (h : List Value) (a : Nat) (ov : Value)
    (ha : a < h.length) :
    (apply_workflow_overrides_heap rand h a ov).1.getD a .null = h.getD a .null ∧
    ∀ b, (apply_workflow_overrides_heap rand h a ov).2 = some b → b ≠ a := by
  unfold apply_workflow_overrides_heap
  rcases hst : applyOverridesState rand (h.getD a .null) ov with ⟨st, raised⟩
  cases raised
  · refine ⟨List.getD_append _ _ _ _ ha, fun b hb => ?_⟩
    have hb' : h.length = b := by simpa using hb
    omega
  · exact ⟨List.getD_append _ _ _ _ ha, fun b hb => by simp at hb⟩

/-- C2 witness: a concrete one-document heap. -/
theorem c2_input_not_mutated_witness :
    (0 : Nat) < [Value.null].length ∧
    ((apply_workflow_overrides_heap 0 [Value.null] 0 (.dict [])).1.getD 0 .null =
        [Value.null].getD 0 .null ∧
      ∀ b, (apply_workflow_overrides_heap 0 [Value.null] 0 (.dict [])).2 = some b → b ≠ 0) :=
  ⟨by decide, c2_input_not_mutated 0 [Value.null] 0 (.dict []) (by decide)⟩

/-- The ten-slot unit workflow used by C3's counterexample. -/
def c3Workflow : Value := .dict [("nodes", .list [.dict [("id", .int 76),
  ("widgets_values", .list [.str "p", .int 100, .int 200, .int 9, .int 4, .int 7,
    .str "fixed", .str "u", .str "c", .str "v"])]])]

/-- C3 counterexample: the claim is false on the code.  The override loop
(handler.py 317-327) writes a recognized key's value to its slot with no
null check: `{"width": null}` overwrites the width slot (index 1), which
held 100, with null, instead of leaving it unchanged. -/
theorem c3_counterexample :
    widget76 c3Workflow 1 = some (.int 100) ∧
    (apply_workflow_overrides 0 c3Workflow (.dict [("width", Value.null)])).bind
      (fun w' => widget76 w' 1) = some Value.null := by
  exact ⟨rfl, rfl⟩

/-- C3 (amended): every recognized override key present in the mapping is
written to its fixed positional slot whether or not its value is null —
a null value overwrites the slot with null — except `seed`, whose null
value additionally triggers fresh seed generation over slot 5.  (Only
recognized keys are written; unrecognized keys and out-of-range slots are
skipped by `applyLoop`.) -/
theorem c3_recognized_key_written_even_null (rand : Nat) (w : Value)
    (oves : List (String × Value)) (wv : List Value) (k : String) (v : Value) (i : Nat)
    (w' : Value) (hwv : node76Widgets w = some wv) (hmem : (k, v) ∈ oves)
    (hnd : (oves.map Prod.fst).Nodup) (hk : override_map k = some i)
    (hlt : i < wv.length) (hks : k ≠ "seed")
    (happ : apply_workflow_overrides rand w (.dict oves) = some w') :
    widget76 w' i = some v := by
  obtain ⟨wes, ns, i0, nes, rfl, hn, hf, hw⟩ := node76Widgets_elim w wv hwv
  have h5cond : seedIsNull oves = true → 5 < wv.length := by
    intro hs
    by_contra h5
    rw [applyOverridesState_crash rand wes ns i0 nes wv oves hn hf hw hs h5] at happ
    exact Option.noConfusion happ
  rw [applyOverridesState_found rand wes ns i0 nes wv oves hn hf hw h5cond] at happ
  obtain rfl : w' = _ := (Option.some.inj happ).symm
  rw [widget76, node76Widgets_result wes ns i0 nes _ hf, Option.some_bind]
  rw [finalWidgets_get_loop rand oves wv i (override_map_ne_five k i hks hk)
    (override_map_ne_six k i hk)]
  exact applyLoop_mem_get wv oves k v i hmem hnd hk hlt

/-- C3 witness for the amended claim: `{"width": null}` lands null in
slot 1 of the ten-slot unit. -/
theorem c3_recognized_key_written_even_null_witness :
    widget76 c3Workflow 1 = some (.int 100) ∧
    widget76 (.dict [("nodes", .list [.dict [("id", .int 76),
      ("widgets_values", .list [.str "p", Value.null, .int 200, .int 9, .int 4, .int 7,
        .str "randomize", .str "u", .str "c", .str "v"])]])]) 1 = some Value.null :=
  ⟨rfl, c3_recognized_key_written_even_null 0 c3Workflow [("width", Value.null)]
    [.str "p", .int 100, .int 200, .int 9, .int 4, .int 7, .str "fixed", .str "u",
      .str "c", .str "v"]
    "width" Value.null 1 _ rfl (by simp) (by simp) rfl (by decide) (by decide) rfl⟩

/-- The startup template used by C4's counterexample (a non-empty
document, distinct from the caller's empty one). -/
def c4Default : Value := .dict [("nodes", .list [])]

/-- An engine whose submission endpoint always fails (C4's counterexample
does not depend on the engine: the submitted document is recorded before
any outcome). -/
def c4Engine : Engine := ⟨fun _ => .fail, fun _ => none, fun _ _ _ => none⟩

/-- C4 counterexample environment. -/
def c4Cfg : Cfg := ⟨c4Engine, 0, some c4Default⟩

/-- C4 counterexample event: the input contains a workflow document — an
empty mapping — under the `workflow` key. -/
def c4Event : Value := .dict [("input", .dict [("workflow", .dict [])])]

/-- C4 counterexample: the claim is false on the code.  Line 422's
`if workflow:` tests Python truthiness, so a present-but-empty caller
workflow (`{}`) is discarded and the startup template is submitted
instead of the caller-supplied document. -/
theorem c4_counterexample :
    (match c4Event with
      | .dict ees => (ees.lookup "input").getD .null
      | _ => .null) = .dict [("workflow", .dict [])] ∧
    (handlerRun c4Cfg c4Event).submitted = some c4Default ∧
    c4Default ≠ Value.dict [] := by
  refine ⟨rfl, rfl, fun hc => ?_⟩
  simp [c4Default] at hc

/-- C4 (amended): for every valid request whose input contains a TRUTHY
(non-empty) workflow document, the handler submits the caller-supplied
document (with overrides applied when a truthy overrides mapping is
present) and does not use the startup template; a present but falsy
workflow value (such as `{}`) falls back to the template. -/
theorem c4_truthy_workflow_precedence (cfg : Cfg) (ev : Value)
    (ees ies : List (String × Value)) (wfv ovv : Value)
    (hev : ev = .dict ees) (hin : ees.lookup "input" = some (.dict ies))
    (hwf : ies.lookup "workflow" = some wfv) (ht : truthy wfv = true)
    (hval : validate_input ev = (true, none))
    (hov : (ies.lookup "overrides").getD (.dict []) = ovv) :
    (truthy ovv = false → (handlerRun cfg ev).submitted = some wfv) ∧
    (∀ w', truthy ovv = true → apply_workflow_overrides cfg.rand wfv ovv = some w' →
      (handlerRun cfg ev).submitted = some w') := by
  subst hev
  have hcw : ∀ wf, chooseWorkflow cfg (.dict ees) = some wf →
      (handlerRun cfg (.dict ees)).submitted = some wf := by
    intro wf hwfeq
    rcases hq : queue_prompt cfg.engine.submit with _ | _ | pid
    · simp [handlerRun, hval, hwfeq, hq]
    · simp [handlerRun, hval, hwfeq, hq]
    · rcases hwt : wait_for_completion cfg.engine.history pid JOB_TIMEOUT with _ | _ | _ | _ <;>
        simp [handlerRun, hval, hwfeq, hq, hwt]
  constructor
  · intro hof
    refine hcw wfv ?_
    simp only [chooseWorkflow, hin, Option.getD_some, hwf, ht, if_true, hov, hof,
      Bool.false_eq_true, if_false]
  · intro w' hot happ
    refine hcw w' ?_
    simp only [chooseWorkflow, hin, Option.getD_some, hwf, ht, if_true, hov, hot, happ]

/-- C4 witness for the amended claim: a truthy caller workflow (with no
overrides) is the document submitted, not the template. -/
theorem c4_truthy_workflow_precedence_witness :
    (truthy (Value.dict []) = false →
      (handlerRun c4Cfg (.dict [("input", .dict [("workflow", c3Workflow)])])).submitted =
        some c3Workflow) ∧
    (∀ w', truthy (Value.dict []) = true →
      apply_workflow_overrides c4Cfg.rand c3Workflow (Value.dict []) = some w' →
      (handlerRun c4Cfg (.dict [("input", .dict [("workflow", c3Workflow)])])).submitted =
        some w') :=
  c4_truthy_workflow_precedence c4Cfg _ _ _ c3Workflow (Value.dict []) rfl rfl rfl rfl rfl rfl

/-- C5 counterexample event: `input.overrides` is present and is a list —
not a mapping — but an empty, falsy one. -/
def c5Event : Value := .dict [("input", .dict [("overrides", .list [])])]

/-- C5 counterexample: the claim is false on the code.  Line 364's
`if overrides:` guards the shape check by truthiness, so a falsy
non-mapping `overrides` (here the empty list `[]`) passes validation
instead of being rejected. -/
theorem c5_counterexample :
    (match c5Event with
      | .dict ees =>
        match (ees.lookup "input").getD (.dict []) with
        | .dict ies => ies.lookup "overrides"
        | _ => none
      | _ => none) = some (.list []) ∧
    Value.isDict (.list []) = false ∧
    validate_input c5Event = (true, none) :=
  ⟨rfl, rfl, rfl⟩

/-- C5 (amended): `validate_input` rejects every event whose input
contains a TRUTHY (non-empty) overrides field that is not a mapping, and
such a request yields a FAILED envelope with no submission and no polling;
a falsy non-mapping overrides value passes validation unexamined. -/
theorem c5_truthy_non_mapping_rejected (cfg : Cfg) (ev : Value)
    (ees ies : List (String × Value)) (ov : Value)
    (hev : ev = .dict ees) (hin : (ees.lookup "input").getD (.dict []) = .dict ies)
    (hov : (ies.lookup "overrides").getD (.dict []) = ov) (ht : truthy ov = true)
    (hd : ov.isDict = false) :
    validate_input ev = (false, some "Overrides must be a dictionary") ∧
    handlerRun cfg ev =
      ⟨some ⟨none, .str "Validation error: Overrides must be a dictionary", "FAILED"⟩,
        none, false⟩ := by
  subst hev
  have hv : validate_input (.dict ees) = (false, some "Overrides must be a dictionary") := by
    cases ov with
    | dict oves => simp [Value.isDict] at hd
    | null => simp [truthy] at ht
    | bool b => simp only [validate_input, hin, hov, ht, if_true]
    | int n => simp only [validate_input, hin, hov, ht, if_true]
    | str s => simp only [validate_input, hin, hov, ht, if_true]
    | list xs => simp only [validate_input, hin, hov, ht, if_true]
  exact ⟨hv, by simp [handlerRun, hv]⟩

/-- C5 witness for the amended claim: `overrides: [1]` (truthy, not a
mapping) is rejected and the handler fails before any engine call. -/
theorem c5_truthy_non_mapping_rejected_witness :
    validate_input (.dict [("input", .dict [("overrides", .list [.int 1])])]) =
      (false, some "Overrides must be a dictionary") ∧
    handlerRun c4Cfg (.dict [("input", .dict [("overrides", .list [.int 1])])]) =
      ⟨some ⟨none, .str "Validation error: Overrides must be a dictionary", "FAILED"⟩,
        none, false⟩ :=
  c5_truthy_non_mapping_rejected c4Cfg _ _ _ (.list [.int 1]) rfl rfl rfl rfl rfl

/-- C8: when all three submission attempts fail at the transport level,
`queue_prompt` returns no handle and the handler responds with a FAILED
envelope carrying the submission-failure message, without ever polling. -/
theorem c8_all_attempts_fail (cfg : Cfg) (ev : Value) (wf : Value)
    (hval : validate_input ev = (true, none))
    (hwf : chooseWorkflow cfg ev = some wf)
    (hfail : ∀ i, i < MAX_RETRIES → cfg.engine.submit i = .fail) :
    handlerRun cfg ev =
      ⟨some ⟨none, .str "Failed to submit workflow to ComfyUI", "FAILED"⟩,
        some wf, false⟩ := by
  have hq : queue_prompt cfg.engine.submit = .noHandle := by
    have h0 := hfail 0 (by decide)
    have h1 := hfail 1 (by decide)
    have h2 := hfail 2 (by decide)
    simp [queue_prompt, MAX_RETRIES, queue_promptAux, h0, h1, h2]
  simp [handlerRun, hval, hwf, hq]

/-- C8 witness: a concrete always-failing engine. -/
theorem c8_all_attempts_fail_witness :
    handlerRun c4Cfg (.dict [("input", .dict [])]) =
      ⟨some ⟨none, .str "Failed to submit workflow to ComfyUI", "FAILED"⟩,
        some c4Default, false⟩ :=
  c8_all_attempts_fail c4Cfg _ c4Default rfl rfl (fun _ _ => rfl)

theorem extractImgList_wf (fetch : Value → Value → Value → Option (List Nat))
    (imgs : List Value) (acc : List ImageRec)
    (himgs : ∀ img ∈ imgs, ∃ ies, img = Value.dict ies) :
    extractImgList fetch imgs acc = (acc ++ fetchedImages fetch imgs, false) := by
  induction imgs generalizing acc with
  | nil => simp [extractImgList, fetchedImages]
  | cons img rest ih =>
    obtain ⟨ies, rfl⟩ := himgs img (List.mem_cons_self _ _)
    have hrest : ∀ q ∈ rest, ∃ i2, q = Value.dict i2 :=
      fun q hq => himgs q (List.mem_cons_of_mem _ hq)
    rw [fetchedImages, List.filterMap_cons]
    by_cases htr : truthy ((ies.lookup "filename").getD .null) = true
    · rcases hfr : fetch ((ies.lookup "filename").getD .null)
          ((ies.lookup "subfolder").getD (.str ""))
          ((ies.lookup "type").getD (.str "output")) with _ | bs
      · simp only [extractImgList, htr, if_true, hfr, fetchImage, ih _ hrest, fetchedImages]
      · by_cases hbe : (!bs.isEmpty) = true
        · simp only [extractImgList, htr, if_true, hfr, hbe, fetchImage, ih _ hrest,
            fetchedImages]
          simp
        · simp only [extractImgList, htr, if_true, hfr, hbe, Bool.false_eq_true, if_false,
            fetchImage, ih _ hrest, fetchedImages]
    · simp only [extractImgList, htr, Bool.false_eq_true, if_false, fetchImage,
        ih _ hrest, fetchedImages]

theorem extract_images_wf (fetch : Value → Value → Value → Option (List Nat))
    (pdes noes : List (String × Value)) (nid : String) (imgs : List Value)
    (ho : (pdes.lookup "outputs").getD (.dict []) = .dict [(nid, .dict noes)])
    (hi : noes.lookup "images" = some (.list imgs))
    (himgs : ∀ img ∈ imgs, ∃ ies, img = Value.dict ies) :
    extract_images fetch (.completed (.dict pdes)) = fetchedImages fetch imgs := by
  simp only [extract_images, ho, extractNodes, hi, extractImgList_wf fetch imgs [] himgs,
    List.nil_append]

theorem waitLoop_completed_now (hist : Nat → Option (List (String × Value))) (pid : Value)
    (timeout r t : Nat) (hes : List (String × Value)) (pdes ses : List (String × Value))
    (hh : hist t = some hes) (hl : jlookup hes pid = some (.dict pdes))
    (hst : (pdes.lookup "status").getD (.dict []) = .dict ses)
    (hc : truthy ((ses.lookup "completed").getD (.bool false)) = true) :
    waitLoop hist pid timeout (r + 1) t = .completed (.dict pdes) := by
  simp only [waitLoop, hh, hl, hst, hc, if_true]

/-- C9: when a referenced image's fetch fails during extraction, that
image is omitted and extraction continues with the rest: for a completed
job whose manifest holds one image list, the handler returns a COMPLETED
envelope whose images are exactly the successful fetches in order
(`fetchedImages` — possibly fewer than referenced, possibly empty),
whatever the per-image fetch outcomes. -/
theorem c9_fetch_failure_partial_result (cfg : Cfg) (ev wf : Value) (pid : String)
    (bes hes pdes ses noes : List (String × Value)) (nid : String) (imgs : List Value)
    (hval : validate_input ev = (true, none))
    (hwf : chooseWorkflow cfg ev = some wf)
    (hsub : cfg.engine.submit 0 = .ok (.dict bes))
    (hbes : bes.lookup "prompt_id" = some (.str pid)) (hpid : pid ≠ "")
    (hhist : cfg.engine.history 0 = some hes)
    (hhes : hes.lookup pid = some (.dict pdes))
    (hst : (pdes.lookup "status").getD (.dict []) = .dict ses)
    (hcplt : (ses.lookup "completed").getD (.bool false) = .bool true)
    (ho : (pdes.lookup "outputs").getD (.dict []) = .dict [(nid, .dict noes)])
    (hi : noes.lookup "images" = some (.list imgs))
    (himgs : ∀ img ∈ imgs, ∃ ies, img = Value.dict ies) :
    handlerRun cfg ev =
      ⟨some ⟨some (fetchedImages cfg.engine.fetch imgs, .str pid), .null, "COMPLETED"⟩,
        some wf, true⟩ := by
  have hq : queue_prompt cfg.engine.submit = .handle (.str pid) := by
    simp [queue_prompt, MAX_RETRIES, queue_promptAux, hsub, hbes, truthy, hpid]
  have hw : wait_for_completion cfg.engine.history (.str pid) JOB_TIMEOUT =
      .completed (.dict pdes) :=
    waitLoop_completed_now cfg.engine.history (.str pid) JOB_TIMEOUT 299 0 hes pdes ses
      hhist (by simp [jlookup, hhes]) hst (by rw [hcplt]; rfl)
  simp [handlerRun, hval, hwf, hq, hw,
    extract_images_wf cfg.engine.fetch pdes noes nid imgs ho hi himgs]

/-- The completed-job history entry of C9's witness: status completed,
one output node with two referenced images. -/
def c9Entry : List (String × Value) :=
  [("status", .dict [("completed", .bool true)]),
   ("outputs", .dict [("9", .dict [("images", .list
     [.dict [("filename", .str "a.png"), ("subfolder", .str ""), ("type", .str "output")],
      .dict [("filename", .str "b.png"), ("subfolder", .str ""), ("type", .str "output")]])])])]

/-- C9's witness engine: submission succeeds at once, the first poll finds
the job completed, and the fetch of `a.png` fails while `b.png` yields
three bytes. -/
def c9Engine : Engine :=
  ⟨fun _ => .ok (.dict [("prompt_id", .str "job1")]),
   fun _ => some [("job1", .dict c9Entry)],
   fun fn _ _ => if fn == Value.str "a.png" then none else some [1, 2, 3]⟩

/-- C9 witness environment. -/
def c9Cfg : Cfg := ⟨c9Engine, 0, some c4Default⟩

/-- C9 witness: of the two referenced images one fetch fails; the response
is COMPLETED with exactly the one successfully fetched image. -/
theorem c9_fetch_failure_partial_result_witness :
    handlerRun c9Cfg (.dict [("input", .dict [])]) =
      ⟨some ⟨some ([⟨.str "b.png", .str "", .str "output", "AQID"⟩], .str "job1"), .null,
        "COMPLETED"⟩, some c4Default, true⟩ :=
  (c9_fetch_failure_partial_result c9Cfg (.dict [("input", .dict [])]) c4Default "job1"
      [("prompt_id", .str "job1")] [("job1", .dict c9Entry)] c9Entry
      [("completed", .bool true)] [("images", .list
        [.dict [("filename", .str "a.png"), ("subfolder", .str ""), ("type", .str "output")],
         .dict [("filename", .str "b.png"), ("subfolder", .str ""), ("type", .str "output")]])]
      "9" _
      rfl rfl rfl rfl (by decide) rfl rfl rfl rfl rfl rfl
      (by
        intro img h
        simp only [List.mem_cons, List.not_mem_nil, or_false] at h
        rcases h with rfl | rfl
        · exact ⟨_, rfl⟩
        · exact ⟨_, rfl⟩)).trans rfl

theorem waitLoop_all_none (hist : Nat → Option (List (String × Value))) (pid : Value)
    (timeout : Nat) :
    ∀ r t, (∀ u, t ≤ u → u < t + r → hist u = none) →
      waitLoop hist pid timeout r t = .timedOut timeout := by
  intro r
  induction r with
  | zero => intro t _; rfl
  | succ r ih =>
    intro t hfail
    have h0 : hist t = none := hfail t (Nat.le_refl t) (by omega)
    rw [waitLoop, h0]
    exact ih (t + 1) (fun u hu1 hu2 => hfail u (by omega) (by omega))

/-- C10: a failure of `get_history` (transport-level, `none`) during
polling is treated as the job still being pending: the poll loop moves to
the next tick (one `POLL_INTERVAL` sleep), and when every poll before the
deadline fails this way the outcome is the timeout result, reached only
once the full deadline of `timeout` ticks has elapsed — never an error
outcome, and never a timeout before the deadline. -/
theorem c10_history_failure_is_pending (hist : Nat → Option (List (String × Value)))
    (pid : Value) (timeout : Nat)
    (hfail : ∀ t, t < timeout → hist t = none) :
    wait_for_completion hist pid timeout = .timedOut timeout ∧
    ∀ r t, hist t = none →
      waitLoop hist pid timeout (r + 1) t = waitLoop hist pid timeout r (t + 1) := by
  constructor
  · exact waitLoop_all_none hist pid timeout timeout 0
      (fun u _ hu => hfail u (by omega))
  · intro r t h
    rw [waitLoop, h]

/-- C10 witness: a three-tick deadline with the status endpoint
unreachable at every tick times out at the deadline, and the first failed
poll just advances one tick. -/
theorem c10_history_failure_is_pending_witness :
    wait_for_completion (fun _ => none) (.str "p") 3 = .timedOut 3 ∧
    ∀ r t, (fun _ : Nat => (none : Option (List (String × Value)))) t = none →
      waitLoop (fun _ => none) (.str "p") 3 (r + 1) t =
        waitLoop (fun _ => none) (.str "p") 3 r (t + 1) :=
  c10_history_failure_is_pending (fun _ => none) (.str "p") 3 (fun _ _ => rfl)
